import Mathlib

/-!
# Verification of the two-service voting application

Shallow embedding of the `vote` and `results` services
(`src/vote/index.js`, `src/results/index.js`): the shared `votes` table is a
list of rows, each HTTP handler is a function from the store (plus its inputs
and a flag telling whether the database round-trip succeeds) to the new store
and the response.  SQL aggregation (`GROUP BY option ORDER BY count DESC`) is
modelled 1:1, with first-occurrence order standing in for the engine's
unspecified within-tie row order.  JavaScript peculiarities that the handlers
rely on are modelled explicitly: string falsiness (`!option`), the
`env || default` configuration idiom, `Number.prototype.toFixed`, and the
property-enumeration order of plain objects (array-index keys first, in
ascending numeric order), which the HTML results view flows through via
`Object.entries`.
-/

/-- One row of the `votes` table: `id SERIAL PRIMARY KEY, option VARCHAR(255)
NOT NULL, voted_at TIMESTAMP DEFAULT CURRENT_TIMESTAMP`. -/
structure Vote where
  id : Nat
  option : String
  votedAt : Nat
deriving DecidableEq, Repr

/-- The `votes` table plus the state of the `SERIAL` id sequence. -/
structure Store where
  votes : List Vote
  nextId : Nat
deriving DecidableEq, Repr

/-- `SELECT COUNT(*) FROM votes`. -/
def Store.rowCount (s : Store) : Nat := s.votes.length

/-- Number of stored votes carrying a given option value. -/
def Store.countFor (s : Store) (o : String) : Nat :=
  (s.votes.filter (fun v => v.option == o)).length

/-- Responses the vote / results handlers can produce (modulo HTML bodies,
which are modelled separately as structured view data). -/
inductive HttpReply where
  | redirect (loc : String)
  | clientError (code : Nat) (msg : String)
  | serverError (code : Nat) (msg : String)
deriving DecidableEq, Repr

/-- JavaScript truthiness of a form/body field that is either absent
(`undefined`) or a string: `undefined` and `""` are falsy. -/
def jsTruthy : Option String → Bool
  | none => false
  | some s => s != ""

/-- The `process.env.OPTION_X || defaultValue` idiom of `src/vote/index.js`
lines 41-42: an unset or empty environment variable falls back to the
default. -/
def loadOption (env : Option String) (defaultValue : String) : String :=
  if jsTruthy env then env.getD defaultValue else defaultValue

/-- `app.post("/vote")` (`src/vote/index.js` lines 242-258).  `optA`/`optB`
are the configured option values, `body` the submitted `option` form field
(`none` when absent), `now` the server clock, `dbOk` whether the `INSERT`
round-trip succeeds.  Returns the new store and the response. -/
def submitVote (optA optB : String) (s : Store) (body : Option String)
    (now : Nat) (dbOk : Bool) : Store × HttpReply :=
  if !(jsTruthy body) || (body != some optA && body != some optB) then
    (s, .clientError 400 "Invalid option")
  else if dbOk then
    ({ votes := s.votes ++ [⟨s.nextId, body.getD "", now⟩], nextId := s.nextId + 1 },
      .redirect "/?success=1")
  else
    (s, .serverError 500 "Error saving vote")

/-- Body of the `/healthz` JSON response. -/
structure HealthReply where
  code : Nat
  status : String
  service : String
  database : String
deriving DecidableEq, Repr

/-- `app.get("/healthz")` of either service (`src/vote/index.js` 71-88,
`src/results/index.js` 44-65): a `SELECT 1` round-trip, then a fixed JSON
body.  The store is returned unchanged (the handler performs no write). -/
def healthz (service : String) (s : Store) (dbOk : Bool) : Store × HealthReply :=
  if dbOk then
    (s, ⟨200, "healthy", service, "connected"⟩)
  else
    (s, ⟨503, "unhealthy", service, "disconnected"⟩)

/-- `app.post("/delete-all")` (`src/results/index.js` 304-316):
`DELETE FROM votes`, then redirect.  Deletion does not reset the id
sequence. -/
def deleteAllVotes (s : Store) (dbOk : Bool) : Store × HttpReply :=
  if dbOk then
    ({ votes := [], nextId := s.nextId }, .redirect "/?deleted=1")
  else
    (s, .serverError 500 "Error deleting votes")

/-! ## Aggregation: `SELECT option, COUNT(*) FROM votes GROUP BY option ORDER BY count DESC` -/

/-- Distinct values of a list, in order of first occurrence: the grouping
keys of `GROUP BY option`. -/
def keysOf : List String → List String
  | [] => []
  | o :: rest => o :: (keysOf rest).filter (fun x => x != o)

/-- `GROUP BY option` with `COUNT(*)`: one `(option, count)` row per distinct
stored option.  First-occurrence key order stands in for the engine's
unspecified pre-`ORDER BY` row order. -/
def groupRows (votes : List Vote) : List (String × Nat) :=
  (keysOf (votes.map Vote.option)).map (fun o => (o, (votes.map Vote.option).count o))

/-- The `ORDER BY count DESC` comparison on `(option, count)` rows. -/
def byCountDesc (a b : String × Nat) : Prop := b.2 ≤ a.2

instance : DecidableRel byCountDesc := fun a b => Nat.decLe b.2 a.2

instance : IsTotal (String × Nat) byCountDesc := ⟨fun a b => Nat.le_total b.2 a.2⟩

instance : IsTrans (String × Nat) byCountDesc :=
  ⟨fun _ _ _ h h' => Nat.le_trans h' h⟩

/-- The aggregate query both results endpoints run (`src/results/index.js`
lines 72-77 and 321-326): grouped counts ordered by descending count. -/
def queryRows (s : Store) : List (String × Nat) :=
  List.insertionSort byCountDesc (groupRows s.votes)

/-- Rounding of `Number.prototype.toFixed(d)`: the result, scaled to an
integer in units of `10 ^ (-d)`.  ECMA-262 picks the integer `n` minimizing
`|n / 10^d - x|`, the larger one on a tie — round half up, `⌊x·10^d + 1/2⌋`.
(The source computes on binary doubles; the rational model is the exact
idealization of the same formula.) -/
def toFixedInt (d : Nat) (q : ℚ) : ℤ := ⌊q * 10 ^ d + 1 / 2⌋

/-- Decimal rendering of a nonnegative `toFixedInt 2` value, as
`toFixed(2)` prints it: integer part, a dot, two fraction digits. -/
def fixed2String (n : ℤ) : String :=
  let m := n.toNat
  toString (m / 100) ++ "." ++
    (if m % 100 < 10 then "0" ++ toString (m % 100) else toString (m % 100))

/-- One element of the JSON API's `results` array.  The `percentage` field is
the string `((count / total) * 100).toFixed(2)`; it is carried as the scaled
integer `pctHundredths` (its value in hundredths of a percent), with
`ApiEntry.percentage` recovering the printed string.  (When `total = 0` the
source would put the number `0` here instead of a string, but the array is
empty in that case.) -/
structure ApiEntry where
  option : String
  count : Nat
  pctHundredths : ℤ
deriving DecidableEq, Repr

/-- The `percentage` string of a results-array element. -/
def ApiEntry.percentage (e : ApiEntry) : String := fixed2String e.pctHundredths

/-- The JSON body of `GET /api/results`. -/
structure ApiResults where
  total : Nat
  results : List ApiEntry
deriving DecidableEq, Repr

/-- `app.get("/api/results")` (`src/results/index.js` 319-349), read against
a single consistent store state: the two queries (grouped counts and total)
see the same store. -/
def apiResults (s : Store) : ApiResults :=
  let rows := queryRows s
  let total := s.rowCount
  { total := total
    results := rows.map (fun r =>
      { option := r.1
        count := r.2
        pctHundredths :=
          if 0 < total then toFixedInt 2 ((r.2 : ℚ) / (total : ℚ) * 100) else 0 }) }

/-! ## The HTML results view

`app.get("/")` of the results service funnels the ordered rows through a
plain JavaScript object (`result.rows.reduce((acc, row) => ...)`, then
`Object.entries(votes)`).  ECMA-262 enumerates own property keys of an
ordinary object with array-index keys first in ascending numeric order and
all remaining string keys in insertion order, so the row order survives only
for keys that are not array indices. -/

/-- Numeric value of a decimal digit string. -/
def digitsToNat (cs : List Char) : Nat :=
  cs.foldl (fun n c => n * 10 + (c.toNat - 48)) 0

/-- Whether a character list is the canonical decimal form of a natural
number: nonempty, all digits, no leading zero (except `"0"` itself). -/
def isCanonicalDecimal : List Char → Bool
  | [] => false
  | [c] => c.isDigit
  | c :: rest => c.isDigit && c != '0' && rest.all Char.isDigit

/-- Whether a string is an ECMAScript array-index property key: the canonical
decimal form of an integer in `[0, 2^32 - 2]`. -/
def isArrayIndexKey (s : String) : Bool :=
  isCanonicalDecimal s.data && digitsToNat s.data < 4294967295

/-- Ascending numeric order on array-index keys (used only on pairs whose
keys satisfy `isArrayIndexKey`). -/
def byIndexAsc (a b : String × Nat) : Prop :=
  digitsToNat a.1.data ≤ digitsToNat b.1.data

instance : DecidableRel byIndexAsc :=
  fun a b => Nat.decLe (digitsToNat a.1.data) (digitsToNat b.1.data)

instance : IsTotal (String × Nat) byIndexAsc :=
  ⟨fun a b => Nat.le_total (digitsToNat a.1.data) (digitsToNat b.1.data)⟩

instance : IsTrans (String × Nat) byIndexAsc := ⟨fun _ _ _ h h' => Nat.le_trans h h'⟩

/-- `Object.entries` (and `Object.values`) order for an object built by
inserting the given key-value pairs in list order (keys distinct): array-index
keys first in ascending numeric order, then the rest in insertion order. -/
def jsObjectEntries (pairs : List (String × Nat)) : List (String × Nat) :=
  List.insertionSort byIndexAsc (pairs.filter (fun p => isArrayIndexKey p.1)) ++
    pairs.filter (fun p => !isArrayIndexKey p.1)

/-- One rendered `result-item` of the HTML results view.  `pctTenths` is the
value of the displayed `((count / total) * 100).toFixed(1)` percentage in
tenths of a percent; `barWidth` the `width: ...%` of the bar. -/
structure ViewEntry where
  option : String
  count : Nat
  pctTenths : ℤ
  barWidth : ℚ
deriving DecidableEq, Repr

/-- The data content of the rendered results page. -/
structure ResultsView where
  total : Nat
  deletedBanner : Bool
  emptyState : Bool
  maxVotes : Nat
  entries : List ViewEntry
deriving DecidableEq, Repr

/-- `app.get("/")` of the results service (`src/results/index.js` 68-301),
read against a single consistent store state.  `deleted` is the `?deleted`
query flag.  `maxVotes = Math.max(...Object.values(votes), 1)`; when
`total === 0` the page shows the empty-state block and no per-option bars,
otherwise one entry per `Object.entries(votes)` element with
`percentage = total > 0 ? ((count / total) * 100).toFixed(1) : 0` and
`barWidth = total > 0 ? (count / maxVotes) * 100 : 0`. -/
def resultsView (s : Store) (deleted : Bool) : ResultsView :=
  let entriesSrc := jsObjectEntries (queryRows s)
  let total := s.rowCount
  let maxVotes := (entriesSrc.map Prod.snd).foldr max 1
  { total := total
    deletedBanner := deleted
    emptyState := total == 0
    maxVotes := maxVotes
    entries :=
      if total == 0 then []
      else entriesSrc.map (fun r =>
        { option := r.1
          count := r.2
          pctTenths := if 0 < total then toFixedInt 1 ((r.2 : ℚ) / (total : ℚ) * 100) else 0
          barWidth := if 0 < total then (r.2 : ℚ) / (maxVotes : ℚ) * 100 else 0 }) }

/-! ## Lemmas about the grouping aggregation -/

theorem mem_keysOf {x : String} : ∀ {l : List String}, x ∈ keysOf l ↔ x ∈ l := by
  intro l
  induction l with
  | nil => simp [keysOf]
  | cons o rest ih =>
    by_cases hx : x = o
    · subst hx; simp [keysOf]
    · simp [keysOf, List.mem_filter, ih, hx]

theorem nodup_keysOf : ∀ l : List String, (keysOf l).Nodup := by
  intro l
  induction l with
  | nil => simp [keysOf]
  | cons o rest ih =>
    refine List.nodup_cons.mpr ⟨?_, ih.filter _⟩
    intro hmem
    have h2 := (List.mem_filter.mp hmem).2
    simp at h2

theorem toFinset_keysOf (l : List String) : (keysOf l).toFinset = l.toFinset := by
  ext x
  simp [List.mem_toFinset, mem_keysOf]

/-- The distinct-value counts of a list sum to its length: the heart of
"per-option counts sum to the total". -/
theorem sum_keysOf_count (l : List String) :
    ((keysOf l).map (fun k => l.count k)).sum = l.length := by
  rw [← List.sum_toFinset _ (nodup_keysOf l), toFinset_keysOf,
    List.sum_toFinset_count_eq_length]

theorem groupRows_snd_sum (votes : List Vote) :
    ((groupRows votes).map Prod.snd).sum = votes.length := by
  unfold groupRows
  rw [List.map_map]
  have : (Prod.snd ∘ fun o => (o, (votes.map Vote.option).count o)) =
      fun k => (votes.map Vote.option).count k := rfl
  rw [this, sum_keysOf_count, List.length_map]

theorem mem_groupRows {votes : List Vote} {r : String × Nat}
    (h : r ∈ groupRows votes) :
    r.1 ∈ votes.map Vote.option ∧ r.2 = (votes.map Vote.option).count r.1 := by
  unfold groupRows at h
  rcases List.mem_map.mp h with ⟨o, ho, rfl⟩
  exact ⟨mem_keysOf.mp ho, rfl⟩

theorem queryRows_perm (s : Store) : List.Perm (queryRows s) (groupRows s.votes) :=
  List.perm_insertionSort byCountDesc (groupRows s.votes)

theorem queryRows_sorted (s : Store) : (queryRows s).Sorted byCountDesc :=
  List.sorted_insertionSort byCountDesc (groupRows s.votes)

theorem queryRows_snd_sum (s : Store) :
    ((queryRows s).map Prod.snd).sum = s.rowCount :=
  ((queryRows_perm s).map Prod.snd).sum_eq.trans (groupRows_snd_sum s.votes)

theorem mem_queryRows {s : Store} {r : String × Nat} (h : r ∈ queryRows s) :
    r.1 ∈ s.votes.map Vote.option ∧ r.2 = (s.votes.map Vote.option).count r.1 :=
  mem_groupRows ((queryRows_perm s).mem_iff.mp h)

theorem countFor_eq_count (s : Store) (o : String) :
    s.countFor o = (s.votes.map Vote.option).count o := by
  unfold Store.countFor
  simp only [List.count, List.countP_map, List.countP_eq_length_filter, List.filter_map,
    List.length_map, Function.comp]
  rfl

theorem one_le_foldr_max (ns : List Nat) : 1 ≤ ns.foldr max 1 := by
  induction ns with
  | nil => exact Nat.le_refl 1
  | cons n ns ih => exact Nat.le_trans ih (Nat.le_max_right n _)

/-- A configured option value is never the empty string: the `|| default`
fallback replaces an unset or empty environment variable by the (nonempty)
default. -/
theorem loadOption_ne_empty (env : Option String) (d : String) (hd : d ≠ "") :
    loadOption env d ≠ "" := by
  unfold loadOption
  cases env with
  | none => simpa [jsTruthy] using hd
  | some s =>
    by_cases hs : s = ""
    · subst hs; simpa [jsTruthy] using hd
    · simp [jsTruthy, hs]

/-! ## Claim theorems -/

/-- Claim C1: submitting a form value equal to one of the two configured
option values (as loaded from the environment with their `cats`/`dogs`
defaults) appends exactly one new Vote record carrying that option and the
current server time, increasing the row count by exactly 1 and that option's
count by 1, and responds with a redirect to `/?success=1`. -/
theorem claim1_valid_vote_inserts_one (envA envB : Option String) (s : Store)
    (v : String) (now : Nat) (dbOk : Bool)
    (hv : v = loadOption envA "cats" ∨ v = loadOption envB "dogs")
    (hdb : dbOk = true) :
    (submitVote (loadOption envA "cats") (loadOption envB "dogs") s (some v) now dbOk).1.votes
        = s.votes ++ [⟨s.nextId, v, now⟩]
    ∧ (submitVote (loadOption envA "cats") (loadOption envB "dogs") s (some v) now dbOk).1.rowCount
        = s.rowCount + 1
    ∧ (submitVote (loadOption envA "cats") (loadOption envB "dogs") s (some v) now dbOk).1.countFor v
        = s.countFor v + 1
    ∧ (submitVote (loadOption envA "cats") (loadOption envB "dogs") s (some v) now dbOk).2
        = .redirect "/?success=1" := by
  subst hdb
  have hv' : v ≠ "" := by
    rcases hv with rfl | rfl
    · exact loadOption_ne_empty envA "cats" (by decide)
    · exact loadOption_ne_empty envB "dogs" (by decide)
  have hcond : (!(jsTruthy (some v)) ||
      (some v != some (loadOption envA "cats") && some v != some (loadOption envB "dogs")))
        = false := by
    rcases hv with rfl | rfl <;> simp [jsTruthy, hv']
  refine ⟨?_, ?_, ?_, ?_⟩ <;>
    simp [submitVote, hcond, Store.rowCount, Store.countFor, List.filter_append]

/-- Claim C1 witness: with unset environment (options default to
`cats`/`dogs`), voting `cats` on an empty store appends that single row,
bumps both counts from 0 to 1 and redirects to `/?success=1`. -/
theorem claim1_valid_vote_inserts_one_witness :
    (submitVote (loadOption none "cats") (loadOption none "dogs") (Store.mk [] 1)
        (some "cats") 5 true).1.votes
        = (Store.mk [] 1).votes ++ [⟨(Store.mk [] 1).nextId, "cats", 5⟩]
    ∧ (submitVote (loadOption none "cats") (loadOption none "dogs") (Store.mk [] 1)
        (some "cats") 5 true).1.rowCount = (Store.mk [] 1).rowCount + 1
    ∧ (submitVote (loadOption none "cats") (loadOption none "dogs") (Store.mk [] 1)
        (some "cats") 5 true).1.countFor "cats" = (Store.mk [] 1).countFor "cats" + 1
    ∧ (submitVote (loadOption none "cats") (loadOption none "dogs") (Store.mk [] 1)
        (some "cats") 5 true).2 = .redirect "/?success=1" :=
  claim1_valid_vote_inserts_one none none (Store.mk [] 1) "cats" 5 true
    (Or.inl (by decide)) rfl

/-- Claim C2: any submitted value that is not equal to either configured
option — including a missing field — yields status 400 with no write: the
store (contents and row count) is returned unchanged. -/
theorem claim2_invalid_vote_rejected (optA optB : String) (s : Store)
    (body : Option String) (now : Nat) (dbOk : Bool)
    (h : ∀ v, body = some v → v ≠ optA ∧ v ≠ optB) :
    submitVote optA optB s body now dbOk = (s, .clientError 400 "Invalid option") := by
  cases body with
  | none => simp [submitVote, jsTruthy]
  | some v =>
    obtain ⟨ha, hb⟩ := h v rfl
    by_cases hv : v = ""
    · subst hv; simp [submitVote, jsTruthy]
    · simp [submitVote, jsTruthy, hv, ha, hb]

/-- Claim C2 witness: submitting `birds` against options `cats`/`dogs`
returns 400 and leaves the store untouched. -/
theorem claim2_invalid_vote_rejected_witness :
    submitVote "cats" "dogs" (Store.mk [⟨1, "cats", 0⟩] 2) (some "birds") 7 true
      = (Store.mk [⟨1, "cats", 0⟩] 2, .clientError 400 "Invalid option") :=
  claim2_invalid_vote_rejected "cats" "dogs" (Store.mk [⟨1, "cats", 0⟩] 2)
    (some "birds") 7 true
    (fun v hv => by cases hv; exact ⟨by decide, by decide⟩)

/-- Claim C9: even if a configured option value were the empty string,
submitting the empty string is rejected with 400 and no row is inserted,
because `!option` tests the submitted value for truthiness (the empty string
is falsy) before it is compared against the configured options. -/
theorem claim9_empty_option_rejected (optA optB : String) (s : Store)
    (now : Nat) (dbOk : Bool) (h : optA = "" ∨ optB = "") :
    submitVote optA optB s (some "") now dbOk
      = (s, .clientError 400 "Invalid option") := by
  cases h <;> simp [submitVote, jsTruthy]

/-- Claim C9 witness: with configured options `""`/`dogs`, submitting `""`
is rejected and the store is unchanged. -/
theorem claim9_empty_option_rejected_witness :
    submitVote "" "dogs" (Store.mk [] 1) (some "") 3 true
      = (Store.mk [] 1, .clientError 400 "Invalid option") :=
  claim9_empty_option_rejected "" "dogs" (Store.mk [] 1) 3 true (Or.inl rfl)

/-- Claim C5: deleting all votes empties the table (row count 0), responds
with a redirect to `/?deleted=1`, and a subsequent results read returns
total 0 with an empty results array and the empty-state indicator. -/
theorem claim5_delete_all (s : Store) (dbOk : Bool) (hdb : dbOk = true) :
    (deleteAllVotes s dbOk).1.rowCount = 0
    ∧ (deleteAllVotes s dbOk).2 = .redirect "/?deleted=1"
    ∧ (apiResults (deleteAllVotes s dbOk).1).total = 0
    ∧ (apiResults (deleteAllVotes s dbOk).1).results = []
    ∧ (resultsView (deleteAllVotes s dbOk).1 false).total = 0
    ∧ (resultsView (deleteAllVotes s dbOk).1 false).emptyState = true := by
  subst hdb
  exact ⟨rfl, rfl, rfl, rfl, rfl, rfl⟩

/-- Claim C5 witness: deleting a two-row store leaves row count 0, redirects
to `/?deleted=1`, and the next read reports total 0, no results and the
empty state. -/
theorem claim5_delete_all_witness :
    (deleteAllVotes (Store.mk [⟨1, "cats", 0⟩, ⟨2, "dogs", 1⟩] 3) true).1.rowCount = 0
    ∧ (deleteAllVotes (Store.mk [⟨1, "cats", 0⟩, ⟨2, "dogs", 1⟩] 3) true).2
        = .redirect "/?deleted=1"
    ∧ (apiResults (deleteAllVotes (Store.mk [⟨1, "cats", 0⟩, ⟨2, "dogs", 1⟩] 3) true).1).total = 0
    ∧ (apiResults (deleteAllVotes (Store.mk [⟨1, "cats", 0⟩, ⟨2, "dogs", 1⟩] 3) true).1).results = []
    ∧ (resultsView (deleteAllVotes (Store.mk [⟨1, "cats", 0⟩, ⟨2, "dogs", 1⟩] 3) true).1 false).total = 0
    ∧ (resultsView (deleteAllVotes (Store.mk [⟨1, "cats", 0⟩, ⟨2, "dogs", 1⟩] 3) true).1 false).emptyState
        = true :=
  claim5_delete_all (Store.mk [⟨1, "cats", 0⟩, ⟨2, "dogs", 1⟩] 3) true rfl

/-- Claim C7: the liveness check of either service leaves the store
untouched and responds 200 `healthy`/`connected` exactly when the `SELECT 1`
round-trip succeeds, 503 `unhealthy`/`disconnected` exactly when it fails. -/
theorem claim7_healthz (s : Store) (dbOk : Bool) :
    (healthz "vote" s dbOk).1 = s
    ∧ (healthz "results" s dbOk).1 = s
    ∧ ((healthz "vote" s dbOk).2 = ⟨200, "healthy", "vote", "connected"⟩ ↔ dbOk = true)
    ∧ ((healthz "vote" s dbOk).2 = ⟨503, "unhealthy", "vote", "disconnected"⟩ ↔ dbOk = false)
    ∧ ((healthz "results" s dbOk).2 = ⟨200, "healthy", "results", "connected"⟩ ↔ dbOk = true)
    ∧ ((healthz "results" s dbOk).2 = ⟨503, "unhealthy", "results", "disconnected"⟩
        ↔ dbOk = false) := by
  cases dbOk <;> simp [healthz]

/-- The §8 scenario store: three votes cast as cats, cats, dogs (with
default configured options `cats`/`dogs`). -/
def demoStore : Store := ⟨[⟨1, "cats", 0⟩, ⟨2, "cats", 1⟩, ⟨3, "dogs", 2⟩], 4⟩

theorem apiResults_counts (s : Store) :
    (apiResults s).results.map ApiEntry.count = (queryRows s).map Prod.snd := by
  simp only [apiResults, List.map_map]
  rfl

theorem apiResults_options (s : Store) :
    (apiResults s).results.map ApiEntry.option = (queryRows s).map Prod.fst := by
  simp only [apiResults, List.map_map]
  rfl

/-- Claim C10: in every JSON results response over one consistent store
state, the per-option counts sum to the returned total, every listed count
is at least 1, and an option with no stored votes never appears. -/
theorem claim10_api_aggregation_invariants (s : Store) :
    ((apiResults s).results.map ApiEntry.count).sum = (apiResults s).total
    ∧ (∀ c ∈ (apiResults s).results.map ApiEntry.count, 1 ≤ c)
    ∧ (∀ o : String, s.countFor o = 0 →
        o ∉ (apiResults s).results.map ApiEntry.option) := by
  refine ⟨?_, ?_, ?_⟩
  · rw [apiResults_counts]
    exact queryRows_snd_sum s
  · intro c hc
    rw [apiResults_counts] at hc
    rcases List.mem_map.mp hc with ⟨r, hr, rfl⟩
    obtain ⟨hmem, hcount⟩ := mem_queryRows hr
    rw [hcount]
    exact List.count_pos_iff.mpr hmem
  · intro o ho hmem
    rw [apiResults_options] at hmem
    rcases List.mem_map.mp hmem with ⟨r, hr, rfl⟩
    obtain ⟨hv, _⟩ := mem_queryRows hr
    rw [countFor_eq_count] at ho
    exact (List.count_eq_zero.mp ho) hv

/-- Claim C10 witness: over the store cats, cats, dogs the counts [2, 1] sum
to the total 3; the listed count 2 is at least 1; and the absent option
`birds` (stored count 0) does not appear. -/
theorem claim10_api_aggregation_invariants_witness :
    ((apiResults demoStore).results.map ApiEntry.count).sum = (apiResults demoStore).total
    ∧ (2 ∈ (apiResults demoStore).results.map ApiEntry.count ∧ 1 ≤ 2)
    ∧ (demoStore.countFor "birds" = 0
        ∧ "birds" ∉ (apiResults demoStore).results.map ApiEntry.option) :=
  ⟨(claim10_api_aggregation_invariants demoStore).1,
    ⟨by decide, (claim10_api_aggregation_invariants demoStore).2.1 2 (by decide)⟩,
    ⟨by decide, (claim10_api_aggregation_invariants demoStore).2.2 "birds" (by decide)⟩⟩

/-- A store whose two option values `"1"` and `"0"` are ECMAScript
array-index strings: the results view's intermediate JavaScript object
enumerates them in ascending numeric key order, discarding the SQL
`ORDER BY count DESC` row order. -/
def numericOptionStore : Store := ⟨[⟨1, "1", 0⟩, ⟨2, "1", 1⟩, ⟨3, "0", 2⟩], 4⟩

/-- Claim C6 counterexample: with stored options `"1"` (2 votes) and `"0"`
(1 vote), the HTML results view's entries come out as counts [1, 2] — not
ordered by descending vote count — because `Object.entries` enumerates the
array-index keys `"0"`, `"1"` in ascending numeric order. -/
theorem claim6_ordering_counterexample :
    ¬ (((resultsView numericOptionStore false).entries.map ViewEntry.count).Sorted
        (fun a b => b ≤ a)) := by
  decide

theorem mem_map_option_of_mem_queryRows {s : Store} {r : String × Nat}
    (h : r ∈ queryRows s) : ∃ v ∈ s.votes, v.option = r.1 := by
  obtain ⟨hmem, _⟩ := mem_queryRows h
  rcases List.mem_map.mp hmem with ⟨v, hv, heq⟩
  exact ⟨v, hv, heq⟩

theorem jsObjectEntries_eq_self {pairs : List (String × Nat)}
    (h : ∀ p ∈ pairs, isArrayIndexKey p.1 = false) :
    jsObjectEntries pairs = pairs := by
  unfold jsObjectEntries
  have h1 : pairs.filter (fun p => isArrayIndexKey p.1) = [] :=
    List.filter_eq_nil_iff.mpr (by intro p hp; simp [h p hp])
  have h2 : pairs.filter (fun p => !isArrayIndexKey p.1) = pairs :=
    List.filter_eq_self.mpr (by intro p hp; simp [h p hp])
  rw [h1, h2]
  rfl

/-- Claim C6 (amended): the JSON API's results array is always ordered by
descending vote count; the HTML results view's entries are so ordered
provided no stored option value is an ECMAScript array-index string (in
particular for the default `cats`/`dogs` options). -/
theorem claim6_ordering_amended (s : Store) (deleted : Bool) :
    (((apiResults s).results.map ApiEntry.count).Sorted (fun a b => b ≤ a))
    ∧ ((∀ v ∈ s.votes, isArrayIndexKey v.option = false) →
        (((resultsView s deleted).entries.map ViewEntry.count).Sorted (fun a b => b ≤ a))) := by
  have hsorted : ((queryRows s).map Prod.snd).Sorted (fun a b => b ≤ a) :=
    List.pairwise_map.mpr (queryRows_sorted s)
  constructor
  · rw [apiResults_counts]
    exact hsorted
  · intro h
    have hkeys : ∀ p ∈ queryRows s, isArrayIndexKey p.1 = false := by
      intro p hp
      rcases mem_map_option_of_mem_queryRows hp with ⟨v, hv, hvo⟩
      rw [← hvo]
      exact h v hv
    by_cases h0 : s.rowCount = 0
    · simp [resultsView, h0]
    · have hview : (resultsView s deleted).entries.map ViewEntry.count
          = (queryRows s).map Prod.snd := by
        simp only [resultsView, jsObjectEntries_eq_self hkeys]
        rw [if_neg (by simpa using h0), List.map_map]
        rfl
      rw [hview]
      exact hsorted

/-- Claim C6 witness: over the cats, cats, dogs store (options are not
array-index strings) both the JSON results array and the HTML view entries
carry counts [2, 1], ordered by descending count. -/
theorem claim6_ordering_amended_witness :
    (((apiResults demoStore).results.map ApiEntry.count).Sorted (fun a b => b ≤ a))
    ∧ ((∀ v ∈ demoStore.votes, isArrayIndexKey v.option = false)
        ∧ (((resultsView demoStore false).entries.map ViewEntry.count).Sorted
            (fun a b => b ≤ a))) :=
  ⟨(claim6_ordering_amended demoStore false).1,
    by decide, (claim6_ordering_amended demoStore false).2 (by decide)⟩

/-- An empty store (no votes cast yet). -/
def emptyStore : Store := ⟨[], 1⟩

/-- Claim C8: in the HTML results view the bar-width denominator
`maxVotes = Math.max(...counts, 1)` is at least 1 (never zero), the
empty-state block is shown exactly when `total = 0` — in which case no
per-option bars are rendered — and every rendered entry's bar width is
`(count / maxVotes) * 100` and its displayed percentage is
`(count / total) * 100` (at the view's one-decimal display precision). -/
theorem claim8_view_rendering (s : Store) (deleted : Bool) :
    1 ≤ (resultsView s deleted).maxVotes
    ∧ ((resultsView s deleted).emptyState = true ↔ (resultsView s deleted).total = 0)
    ∧ ((resultsView s deleted).total = 0 → (resultsView s deleted).entries = [])
    ∧ (resultsView s deleted).entries.map ViewEntry.barWidth
        = (resultsView s deleted).entries.map
            (fun e => (e.count : ℚ) / ((resultsView s deleted).maxVotes : ℚ) * 100)
    ∧ (resultsView s deleted).entries.map ViewEntry.pctTenths
        = (resultsView s deleted).entries.map
            (fun e => toFixedInt 1 ((e.count : ℚ) / ((resultsView s deleted).total : ℚ) * 100)) := by
  refine ⟨?_, ?_, ?_, ?_, ?_⟩
  · simp only [resultsView]
    exact one_le_foldr_max _
  · simp [resultsView]
  · intro h0
    simp only [resultsView] at h0 ⊢
    rw [if_pos (by simpa using h0)]
  · by_cases h0 : s.rowCount = 0
    · simp only [resultsView]
      rw [if_pos (by simpa using h0)]
      rfl
    · have hpos : 0 < s.rowCount := Nat.pos_of_ne_zero h0
      simp only [resultsView]
      rw [if_neg (by simpa using h0), List.map_map, List.map_map]
      refine List.map_congr_left ?_
      intro r _
      simp [Function.comp, if_pos hpos]
  · by_cases h0 : s.rowCount = 0
    · simp only [resultsView]
      rw [if_pos (by simpa using h0)]
      rfl
    · have hpos : 0 < s.rowCount := Nat.pos_of_ne_zero h0
      simp only [resultsView]
      rw [if_neg (by simpa using h0), List.map_map, List.map_map]
      refine List.map_congr_left ?_
      intro r _
      simp [Function.comp, if_pos hpos]

/-- Claim C8 witness: over the cats, cats, dogs store the denominator is
positive and the bar-width/percentage formulas hold for the rendered
entries; over the empty store the view reports total 0, the empty state,
and renders no bars. -/
theorem claim8_view_rendering_witness :
    1 ≤ (resultsView demoStore false).maxVotes
    ∧ ((resultsView emptyStore false).total = 0
        ∧ (resultsView emptyStore false).emptyState = true
        ∧ (resultsView emptyStore false).entries = [])
    ∧ (resultsView demoStore false).entries.map ViewEntry.barWidth
        = (resultsView demoStore false).entries.map
            (fun e => (e.count : ℚ) / ((resultsView demoStore false).maxVotes : ℚ) * 100)
    ∧ (resultsView demoStore false).entries.map ViewEntry.pctTenths
        = (resultsView demoStore false).entries.map
            (fun e => toFixedInt 1 ((e.count : ℚ) / ((resultsView demoStore false).total : ℚ) * 100)) :=
  ⟨(claim8_view_rendering demoStore false).1,
    ⟨by decide, by decide, (claim8_view_rendering emptyStore false).2.2.1 (by decide)⟩,
    (claim8_view_rendering demoStore false).2.2.2.1,
    (claim8_view_rendering demoStore false).2.2.2.2⟩

/-- Claim C3: with configured options `cats`/`dogs` and exactly the votes
cats, cats, dogs stored, the JSON results API returns total 3 and, ordered
by descending count, cats with count 2 and percentage "66.67" then dogs
with count 1 and percentage "33.33" (two-decimal strings). -/
theorem claim3_cats_dogs_scenario :
    (apiResults demoStore).total = 3
    ∧ (apiResults demoStore).results.map (fun e => (e.option, e.count, e.percentage))
        = [("cats", 2, "66.67"), ("dogs", 1, "33.33")] := by
  have hq : queryRows demoStore = [("cats", 2), ("dogs", 1)] := by decide
  have h1 : toFixedInt 2 ((200 : ℚ) / 3) = 6667 := by
    unfold toFixedInt; norm_num
  have h2 : toFixedInt 2 ((100 : ℚ) / 3) = 3333 := by
    unfold toFixedInt; norm_num
  constructor
  · rfl
  · simp only [apiResults, hq, List.map_cons, List.map_nil]
    norm_num [Store.rowCount, demoStore]
    rw [h1, h2]
    constructor <;> decide

/-- The rounded `toFixed(d)` value differs from the exact scaled value by at
most one half of the last displayed digit. -/
theorem toFixedInt_sub_abs_le (d : Nat) (q : ℚ) :
    |((toFixedInt d q : ℤ) : ℚ) - q * 10 ^ d| ≤ 1 / 2 := by
  unfold toFixedInt
  have h1 : ((⌊q * 10 ^ d + 1 / 2⌋ : ℤ) : ℚ) ≤ q * 10 ^ d + 1 / 2 := Int.floor_le _
  have h2 : q * 10 ^ d + 1 / 2 < ((⌊q * 10 ^ d + 1 / 2⌋ : ℤ) : ℚ) + 1 := Int.lt_floor_add_one _
  rw [abs_le]
  constructor <;> linarith

/-- Summed over any row list, the rounded percentage values (in hundredths
of a percent) stay within half a unit per row of the exact values. -/
theorem sum_pct_err (T : ℕ) (rows : List (String × Nat)) :
    |((rows.map (fun r => ((toFixedInt 2 ((r.2 : ℚ) / (T : ℚ) * 100) : ℤ) : ℚ))).sum
      - (rows.map (fun r => (r.2 : ℚ) / (T : ℚ) * 10000)).sum)|
    ≤ (rows.length : ℚ) / 2 := by
  induction rows with
  | nil => simp
  | cons r rest ih =>
    simp only [List.map_cons, List.sum_cons, List.length_cons]
    have hr := toFixedInt_sub_abs_le 2 ((r.2 : ℚ) / (T : ℚ) * 100)
    have hx : ((r.2 : ℚ) / (T : ℚ) * 100) * 10 ^ 2 = (r.2 : ℚ) / (T : ℚ) * 10000 := by
      norm_num; ring
    rw [hx] at hr
    have habs := abs_add
      (((toFixedInt 2 ((r.2 : ℚ) / (T : ℚ) * 100) : ℤ) : ℚ) - (r.2 : ℚ) / (T : ℚ) * 10000)
      ((rest.map (fun r => ((toFixedInt 2 ((r.2 : ℚ) / (T : ℚ) * 100) : ℤ) : ℚ))).sum
        - (rest.map (fun r => (r.2 : ℚ) / (T : ℚ) * 10000)).sum)
    push_cast
    have heq : ((toFixedInt 2 ((r.2 : ℚ) / (T : ℚ) * 100) : ℤ) : ℚ)
          + (rest.map (fun r => ((toFixedInt 2 ((r.2 : ℚ) / (T : ℚ) * 100) : ℤ) : ℚ))).sum
          - ((r.2 : ℚ) / (T : ℚ) * 10000 + (rest.map (fun r => (r.2 : ℚ) / (T : ℚ) * 10000)).sum)
        = (((toFixedInt 2 ((r.2 : ℚ) / (T : ℚ) * 100) : ℤ) : ℚ) - (r.2 : ℚ) / (T : ℚ) * 10000)
          + ((rest.map (fun r => ((toFixedInt 2 ((r.2 : ℚ) / (T : ℚ) * 100) : ℤ) : ℚ))).sum
            - (rest.map (fun r => (r.2 : ℚ) / (T : ℚ) * 10000)).sum) := by ring
    rw [heq]
    calc _ ≤ _ := habs
      _ ≤ 1 / 2 + (rest.length : ℚ) / 2 := add_le_add hr ih
      _ = ((rest.length : ℚ) + 1) / 2 := by ring

theorem sum_div_eq (T : ℕ) (rows : List (String × Nat)) :
    (rows.map (fun r => (r.2 : ℚ) / (T : ℚ) * 10000)).sum
      = (((rows.map Prod.snd).sum : ℕ) : ℚ) / (T : ℚ) * 10000 := by
  induction rows with
  | nil => simp
  | cons r rest ih =>
    simp only [List.map_cons, List.sum_cons, ih]
    push_cast
    ring

/-- Claim C4: over any single consistent store state, when the JSON API's
total is positive the per-option percentage values (the two-decimal rounded
numbers, summed as rationals) differ from 100 by at most half of the last
displayed digit per listed option (`k / 200` percentage points for `k`
options); when the total is 0 the response is exactly
`{total: 0, results: []}`. -/
theorem claim4_percentages_sum_to_100 (s : Store) :
    (0 < (apiResults s).total →
      |((apiResults s).results.map (fun e => (e.pctHundredths : ℚ))).sum / 100 - 100|
        ≤ ((apiResults s).results.length : ℚ) / 200)
    ∧ ((apiResults s).total = 0 → apiResults s = ⟨0, []⟩) := by
  constructor
  · intro hpos
    have hpos' : 0 < s.rowCount := hpos
    have hmap : (apiResults s).results.map (fun e => (e.pctHundredths : ℚ))
        = (queryRows s).map
            (fun r => ((toFixedInt 2 ((r.2 : ℚ) / (s.rowCount : ℚ) * 100) : ℤ) : ℚ)) := by
      simp only [apiResults, List.map_map]
      refine List.map_congr_left ?_
      intro r _
      simp [Function.comp, if_pos hpos']
    have hlen : (apiResults s).results.length = (queryRows s).length := by
      simp [apiResults]
    have herr := sum_pct_err s.rowCount (queryRows s)
    have hdiv := sum_div_eq s.rowCount (queryRows s)
    have hsum : ((queryRows s).map Prod.snd).sum = s.rowCount := queryRows_snd_sum s
    have hT : ((s.rowCount : ℚ)) ≠ 0 := by
      exact_mod_cast Nat.pos_iff_ne_zero.mp hpos'
    have h10000 : ((s.rowCount : ℕ) : ℚ) / (s.rowCount : ℚ) * 10000 = 10000 := by
      field_simp
    rw [hdiv, hsum, h10000] at herr
    rw [hmap, hlen]
    have hsplit : ((queryRows s).map
          (fun r => ((toFixedInt 2 ((r.2 : ℚ) / (s.rowCount : ℚ) * 100) : ℤ) : ℚ))).sum / 100 - 100
        = (((queryRows s).map
            (fun r => ((toFixedInt 2 ((r.2 : ℚ) / (s.rowCount : ℚ) * 100) : ℤ) : ℚ))).sum
          - 10000) / 100 := by ring
    rw [hsplit, abs_div]
    rw [show |(100 : ℚ)| = 100 by norm_num]
    linarith
  · intro h0
    have hv : s.votes = [] := List.length_eq_zero.mp h0
    simp [apiResults, queryRows, groupRows, keysOf, hv, Store.rowCount]

/-- Claim C4 witness: over the cats, cats, dogs store (total 3, two listed
options) the rounded percentages 66.67 + 33.33 differ from 100 by at most
2/200; over the empty store the response is exactly `{total: 0, results: []}`. -/
theorem claim4_percentages_sum_to_100_witness :
    (0 < (apiResults demoStore).total
      ∧ |((apiResults demoStore).results.map (fun e => (e.pctHundredths : ℚ))).sum / 100 - 100|
          ≤ ((apiResults demoStore).results.length : ℚ) / 200)
    ∧ ((apiResults emptyStore).total = 0 ∧ apiResults emptyStore = ⟨0, []⟩) :=
  ⟨⟨by decide, (claim4_percentages_sum_to_100 demoStore).1 (by decide)⟩,
    ⟨rfl, (claim4_percentages_sum_to_100 emptyStore).2 rfl⟩⟩
